import Mathlib

/-!
Verification of the feature-derivation and filtering pipeline of the
skill half-life dashboard (src/app.py).

The embedding models:
  * a cell value of the tabular dataset (`Value`): a number (modelled by a
    rational to capture exact pandas/numpy arithmetic at the precision the
    claims use), positive or negative infinity (numpy's `inf`, which pandas
    division by zero produces), a category label (string), or the missing
    marker `absent` (pandas `NaN`);
  * pandas elementwise multiplication and division with IEEE-style
    missing-value propagation and division-by-zero semantics (`pdMul`,
    `pdDiv`): `NaN` propagates, `x / 0` is a signed infinity for `x ≠ 0`
    and `NaN` for `x = 0`, and no fault is ever raised;
  * the loader `load_and_process_data` (src/app.py lines 93-121): the raw
    table is either unreadable (`none`, pandas raises `FileNotFoundError`,
    the app shows an error and stops) or a `Dataset`, to which the three
    derived columns are added when their prerequisite raw columns exist;
  * `pd.cut` with bins `[0, 2, 5, 10, inf]` (right-closed intervals) and
    the four urgency labels (`urgencyCategory`);
  * the sidebar filter logic (src/app.py lines 132-153): an optional
    sector filter on the `Sector`-else-`Industry` column, then an optional
    `Skill_Category` filter, each skipped on the wildcard selection
    `"All"`, with `matched`/`total` row counts (`sidebarFilter`).
-/

/-- A cell value of the tabular dataset. -/
inductive Value where
  | absent
  | inf
  | negInf
  | num (q : ℚ)
  | str (s : String)
deriving DecidableEq, Repr

/-- A row: a mapping from column name to cell value. -/
abbrev Row : Type := String → Value

/-- A dataset: a schema (ordered column names) and an ordered list of rows. -/
structure Dataset where
  columns : List String
  rows : List Row

/-- Functional update of one column of a row (pandas column assignment,
restricted to the one row). -/
def setCol (r : Row) (c : String) (v : Value) : Row :=
  fun c' => if c' = c then v else r c'

/-- Pandas schema update: assigning a column appends its name when new. -/
def addName (cols : List String) (c : String) : List String :=
  if c ∈ cols then cols else cols ++ [c]

/-- Elementwise pandas/numpy multiplication on cell values: `NaN`
propagates; infinities follow IEEE 754 sign rules with `inf * 0 = NaN`. -/
def pdMul : Value → Value → Value
  | .absent, _ => .absent
  | _, .absent => .absent
  | .num a, .num b => .num (a * b)
  | .inf, .num b => if 0 < b then .inf else if b < 0 then .negInf else .absent
  | .num a, .inf => if 0 < a then .inf else if a < 0 then .negInf else .absent
  | .negInf, .num b => if 0 < b then .negInf else if b < 0 then .inf else .absent
  | .num a, .negInf => if 0 < a then .negInf else if a < 0 then .inf else .absent
  | .inf, .inf => .inf
  | .negInf, .negInf => .inf
  | .inf, .negInf => .negInf
  | .negInf, .inf => .negInf
  | _, _ => .absent

/-- Elementwise pandas/numpy division on cell values: `NaN` propagates;
division by zero yields a signed infinity for a nonzero numerator and `NaN`
for `0 / 0`; no fault is raised. -/
def pdDiv : Value → Value → Value
  | .absent, _ => .absent
  | _, .absent => .absent
  | .num a, .num b =>
      if b = 0 then
        if a = 0 then .absent else if 0 < a then .inf else .negInf
      else .num (a / b)
  | .inf, .num b => if 0 ≤ b then .inf else .negInf
  | .negInf, .num b => if 0 ≤ b then .negInf else .inf
  | .num _, .inf => .num 0
  | .num _, .negInf => .num 0
  | _, _ => .absent

/-- `pd.cut(·, bins=[0, 2, 5, 10, np.inf], labels=[...])` from src/app.py
lines 107-111: right-closed bins `(0,2]`, `(2,5]`, `(5,10]`, `(10,∞]`;
values outside every bin (`≤ 0`) and missing values get no label. -/
def urgencyCategory : Value → Option String
  | .num y =>
      if 0 < y ∧ y ≤ 2 then some "Critical (<2y)"
      else if 2 < y ∧ y ≤ 5 then some "High (2-5y)"
      else if 5 < y ∧ y ≤ 10 then some "Moderate (5-10y)"
      else if 10 < y then some "Low (>10y)"
      else none
  | .inf => some "Low (>10y)"
  | _ => none

/-- The urgency label as a cell value: `pd.cut` stores `NaN` (absent) for
unlabelled entries. -/
def urgencyValue (v : Value) : Value :=
  match urgencyCategory v with
  | some s => .str s
  | none => .absent

/-- The per-row feature derivation of `load_and_process_data`
(src/app.py lines 102-116), conditioned on the raw schema `cols`:
1. `Acceleration_Index = AI_Adoption_Rate * Skill_Depreciation_Rate` when
   both columns exist;
2. `Urgency_Category = pd.cut(Years_to_50_Percent_Obsolescence, ...)` when
   that column exists;
3. `Reskilling_Viability_Ratio = (Years_to_50_Percent_Obsolescence * 12) /
   Reskilling_Time_Months` when both columns exist.
Each step reads from the frame as left by the previous step, exactly as the
source assigns into `df` between the reads. -/
def deriveRow (cols : List String) (r : Row) : Row :=
  let r1 :=
    if "AI_Adoption_Rate" ∈ cols ∧ "Skill_Depreciation_Rate" ∈ cols then
      setCol r "Acceleration_Index"
        (pdMul (r "AI_Adoption_Rate") (r "Skill_Depreciation_Rate"))
    else r
  let r2 :=
    if "Years_to_50_Percent_Obsolescence" ∈ cols then
      setCol r1 "Urgency_Category"
        (urgencyValue (r1 "Years_to_50_Percent_Obsolescence"))
    else r1
  if "Reskilling_Time_Months" ∈ cols ∧ "Years_to_50_Percent_Obsolescence" ∈ cols then
    setCol r2 "Reskilling_Viability_Ratio"
      (pdDiv (pdMul (r2 "Years_to_50_Percent_Obsolescence") (.num 12))
        (r2 "Reskilling_Time_Months"))
  else r2

/-- The schema after feature derivation, mirroring the three conditional
column assignments of src/app.py lines 103-116. -/
def deriveCols (cols : List String) : List String :=
  let c1 :=
    if "AI_Adoption_Rate" ∈ cols ∧ "Skill_Depreciation_Rate" ∈ cols then
      addName cols "Acceleration_Index"
    else cols
  let c2 :=
    if "Years_to_50_Percent_Obsolescence" ∈ cols then
      addName c1 "Urgency_Category"
    else c1
  if "Reskilling_Time_Months" ∈ cols ∧ "Years_to_50_Percent_Obsolescence" ∈ cols then
    addName c2 "Reskilling_Viability_Ratio"
  else c2

/-- Feature derivation over the whole dataset: the three derived columns are
computed elementwise, row-independently (pandas column arithmetic). -/
def processData (df : Dataset) : Dataset :=
  ⟨deriveCols df.columns, df.rows.map (deriveRow df.columns)⟩

/-- Outcome of `load_and_process_data`: either a processed dataset or the
fatal path of src/app.py lines 119-121 (`st.error` followed by `st.stop()`,
which halts the script run; no dataset is produced). -/
inductive LoadResult where
  | ok (d : Dataset)
  | fatalError (msg : String)

/-- `load_and_process_data` (src/app.py lines 93-121). The raw source is
`none` when `pd.read_csv` raises `FileNotFoundError` (file missing or
unreadable), `some df` when the CSV parses to the raw table `df`. -/
def load_and_process_data : Option Dataset → LoadResult
  | some df => .ok (processData df)
  | none =>
      .fatalError "Dataset skill_half_life_ai.csv not found. Please ensure the file is in the same directory."

/-- The sector filter dimension of the sidebar (src/app.py line 133):
`Sector` when present, else `Industry`. -/
def sectorColName (cols : List String) : String :=
  if "Sector" ∈ cols then "Sector" else "Industry"

/-- Result of one run of the sidebar filter logic: the loaded dataset as it
stands after the run, the filtered view, and the two counts shown in
`"{len(df_filtered)} of {len(df)} records"`. -/
structure FilterResult where
  df : Dataset
  view : Dataset
  matched : Nat
  total : Nat

/-- The sidebar filter logic (src/app.py lines 132-153). `selectedSector`
and `selectedCategory` are the selectbox values; `"All"` is the wildcard.
The sector filter runs only when `Sector` or `Industry` is a column, on the
`sectorColName` column; the category filter runs only when `Skill_Category`
is a column; each keeps exactly the rows whose cell equals the selected
value (`df[df[col] == selected]`). `df` itself is never reassigned. -/
def sidebarFilter (df : Dataset) (selectedSector selectedCategory : String) :
    FilterResult :=
  let df_filtered :=
    if "Sector" ∈ df.columns ∨ "Industry" ∈ df.columns then
      if selectedSector ≠ "All" then
        ⟨df.columns,
          df.rows.filter (fun r =>
            r (sectorColName df.columns) = .str selectedSector)⟩
      else df
    else df
  let df_filtered2 :=
    if "Skill_Category" ∈ df.columns then
      if selectedCategory ≠ "All" then
        ⟨df_filtered.columns,
          df_filtered.rows.filter (fun r =>
            r "Skill_Category" = .str selectedCategory)⟩
      else df_filtered
    else df_filtered
  ⟨df, df_filtered2, df_filtered2.rows.length, df.rows.length⟩

/-- Modelled from the spec (§4.2 Filter Engine semantics), for the
refinement claim about the filter: a row is kept iff, for every selection
`(column, value)` that is active (`value ≠ "All"`) and whose column exists
in the schema, the row's cell in that column equals the selected value
exactly. Inapplicable selections are ignored; active applicable selections
compose with AND. -/
def specFilter (df : Dataset) (sels : List (String × String)) : List Row :=
  df.rows.filter (fun r =>
    sels.all (fun s =>
      if s.2 ≠ "All" ∧ s.1 ∈ df.columns then decide (r s.1 = .str s.2)
      else true))

-- Concrete fixtures used to evaluate the definitions on explicit inputs.

/-- A raw schema holding both ratio inputs. -/
def ratioCols : List String :=
  [ "Years_to_50_Percent_Obsolescence", "Reskilling_Time_Months" ]

/-- A raw row with `Years_to_50_Percent_Obsolescence = 2` and
`Reskilling_Time_Months = 0` (the zero-denominator data condition). -/
def zeroDenomRow : Row := fun c =>
  if c = "Years_to_50_Percent_Obsolescence" then .num 2
  else if c = "Reskilling_Time_Months" then .num 0
  else .absent

/-- A raw row with `Years_to_50_Percent_Obsolescence = 2` and
`Reskilling_Time_Months = 12` (the spec's worked ratio example). -/
def viableRow : Row := fun c =>
  if c = "Years_to_50_Percent_Obsolescence" then .num 2
  else if c = "Reskilling_Time_Months" then .num 12
  else .absent

/-- A raw schema holding only the obsolescence-years column. -/
def urgencyCols : List String := [ "Years_to_50_Percent_Obsolescence" ]

/-- A raw row with `Years_to_50_Percent_Obsolescence = 2` (the 2/5 bin
boundary). -/
def boundaryTwoRow : Row := fun c =>
  if c = "Years_to_50_Percent_Obsolescence" then .num 2 else .absent

/-- A raw row with `Years_to_50_Percent_Obsolescence = 5` (the 5/10 bin
boundary). -/
def boundaryFiveRow : Row := fun c =>
  if c = "Years_to_50_Percent_Obsolescence" then .num 5 else .absent

/-- A raw row with `Years_to_50_Percent_Obsolescence = 1.5` (an interior
value of the first bin). -/
def interiorRow : Row := fun c =>
  if c = "Years_to_50_Percent_Obsolescence" then .num (3 / 2) else .absent

/-- A raw schema holding both multiplication inputs. -/
def accelCols : List String :=
  [ "AI_Adoption_Rate", "Skill_Depreciation_Rate" ]

/-- A raw row with `AI_Adoption_Rate = 3` and `Skill_Depreciation_Rate = 5`. -/
def accelRow : Row := fun c =>
  if c = "AI_Adoption_Rate" then .num 3
  else if c = "Skill_Depreciation_Rate" then .num 5
  else .absent

/-- The empty raw table. -/
def emptyDataset : Dataset := ⟨[], []⟩

/-- A dataset carrying both a `Sector` and an `Industry` column. -/
def sectorDataset : Dataset :=
  ⟨[ "Sector", "Industry", "Skill_Category" ],
   [ fun c => if c = "Sector" then .str "A"
      else if c = "Industry" then .str "B"
      else if c = "Skill_Category" then .str "Engineering"
      else .absent ]⟩

-- Basic lemmas about the embedding.

theorem setCol_self (r : Row) (c : String) (v : Value) : setCol r c v c = v := by
  simp [setCol]

theorem setCol_ne (r : Row) (c : String) (v : Value) {c' : String}
    (h : c' ≠ c) : setCol r c v c' = r c' := by
  simp [setCol, h]

/-- Reading the urgency column of a derived row evaluates `pd.cut` on the
raw obsolescence-years cell. -/
theorem deriveRow_urgency (cols : List String) (r : Row)
    (hy : "Years_to_50_Percent_Obsolescence" ∈ cols) :
    deriveRow cols r "Urgency_Category" =
      urgencyValue (r "Years_to_50_Percent_Obsolescence") := by
  simp [deriveRow, ite_apply, setCol, hy]

/-- Reading the acceleration column of a derived row evaluates the raw
product. -/
theorem deriveRow_accel (cols : List String) (r : Row)
    (h1 : "AI_Adoption_Rate" ∈ cols) (h2 : "Skill_Depreciation_Rate" ∈ cols) :
    deriveRow cols r "Acceleration_Index" =
      pdMul (r "AI_Adoption_Rate") (r "Skill_Depreciation_Rate") := by
  simp [deriveRow, ite_apply, setCol, h1, h2]

/-- Reading the viability-ratio column of a derived row evaluates the raw
quotient. -/
theorem deriveRow_ratio (cols : List String) (r : Row)
    (hy : "Years_to_50_Percent_Obsolescence" ∈ cols)
    (hm : "Reskilling_Time_Months" ∈ cols) :
    deriveRow cols r "Reskilling_Viability_Ratio" =
      pdDiv (pdMul (r "Years_to_50_Percent_Obsolescence") (.num 12))
        (r "Reskilling_Time_Months") := by
  simp [deriveRow, ite_apply, setCol, hy, hm]

/-- C4: for every row over a schema holding both `AI_Adoption_Rate` and
`Skill_Depreciation_Rate`, the derived `Acceleration_Index` equals the
exact product when both operands are numbers (present iff both are
present), and is absent when either operand is absent. -/
theorem acceleration_index_spec (cols : List String) (r : Row)
    (h1 : "AI_Adoption_Rate" ∈ cols) (h2 : "Skill_Depreciation_Rate" ∈ cols) :
    (∀ a b : ℚ, r "AI_Adoption_Rate" = .num a →
      r "Skill_Depreciation_Rate" = .num b →
      deriveRow cols r "Acceleration_Index" = .num (a * b)) ∧
    (r "AI_Adoption_Rate" = .absent →
      deriveRow cols r "Acceleration_Index" = .absent) ∧
    (r "Skill_Depreciation_Rate" = .absent →
      deriveRow cols r "Acceleration_Index" = .absent) := by
  refine ⟨?_, ?_, ?_⟩
  · intro a b ha hb
    rw [deriveRow_accel cols r h1 h2, ha, hb]
    rfl
  · intro ha
    rw [deriveRow_accel cols r h1 h2, ha]
    cases h : r "Skill_Depreciation_Rate" <;> rfl
  · intro hb
    rw [deriveRow_accel cols r h1 h2, hb]
    cases h : r "AI_Adoption_Rate" <;> rfl

/-- C4 witness: a row with rates 3 and 5 derives acceleration index 15. -/
theorem acceleration_index_spec_witness :
    deriveRow accelCols accelRow "Acceleration_Index" = .num (3 * 5) :=
  (acceleration_index_spec accelCols accelRow (by decide) (by decide)).1
    3 5 rfl rfl

/-- C1 counterexample: on the schema holding both ratio inputs, the row
with `Years_to_50_Percent_Obsolescence = 2` and
`Reskilling_Time_Months = 0` derives
`Reskilling_Viability_Ratio = +infinity` (pandas division by zero), not
the absent marker the claim requires. -/
theorem reskilling_ratio_counterexample :
    deriveRow ratioCols zeroDenomRow "Reskilling_Viability_Ratio" = .inf ∧
    Value.inf ≠ Value.absent := by
  constructor
  · rw [deriveRow_ratio ratioCols zeroDenomRow (by decide) (by decide)]
    show pdDiv (pdMul (Value.num 2) (Value.num 12)) (Value.num 0) = Value.inf
    norm_num [pdMul, pdDiv]
  · exact fun h => Value.noConfusion h

/-- C1 (amended): over a schema holding both ratio inputs: when both cells
are numbers and the denominator is nonzero, the derived ratio equals
exactly `(years * 12) / months`; when the denominator is exactly zero the
derived value is `+infinity` for a positive numerator, `-infinity` for a
negative one, and absent only in the `0 / 0` case — never a raised fault;
an absent denominator or an absent numerator propagates to an absent
ratio. -/
theorem reskilling_ratio_spec (cols : List String) (r : Row)
    (hy : "Years_to_50_Percent_Obsolescence" ∈ cols)
    (hm : "Reskilling_Time_Months" ∈ cols) :
    (∀ y m : ℚ, r "Years_to_50_Percent_Obsolescence" = .num y →
      r "Reskilling_Time_Months" = .num m → m ≠ 0 →
      deriveRow cols r "Reskilling_Viability_Ratio" = .num ((y * 12) / m)) ∧
    (∀ y : ℚ, r "Years_to_50_Percent_Obsolescence" = .num y →
      r "Reskilling_Time_Months" = .num 0 →
      deriveRow cols r "Reskilling_Viability_Ratio" =
        (if y = 0 then .absent else if 0 < y then .inf else .negInf)) ∧
    (r "Reskilling_Time_Months" = .absent →
      deriveRow cols r "Reskilling_Viability_Ratio" = .absent) ∧
    (r "Years_to_50_Percent_Obsolescence" = .absent →
      deriveRow cols r "Reskilling_Viability_Ratio" = .absent) := by
  refine ⟨?_, ?_, ?_, ?_⟩
  · intro y m hyv hmv hm0
    rw [deriveRow_ratio cols r hy hm, hyv, hmv]
    simp [pdMul, pdDiv, hm0]
  · intro y hyv hmv
    rw [deriveRow_ratio cols r hy hm, hyv, hmv]
    simp only [pdMul, pdDiv, if_pos rfl]
    by_cases h0 : y = 0
    · subst h0
      norm_num
    · have h12 : ¬ y * 12 = 0 := mul_ne_zero h0 (by norm_num)
      rcases lt_or_gt_of_ne h0 with hlt | hgt
      · have hneg : ¬ 0 < y * 12 := by nlinarith
        simp [h12, h0, hneg, hlt.not_lt]
      · have hpos : 0 < y * 12 := by nlinarith
        simp [h12, h0, hpos, hgt]
  · intro hmv
    rw [deriveRow_ratio cols r hy hm, hmv]
    cases h : pdMul (r "Years_to_50_Percent_Obsolescence") (.num 12) <;> rfl
  · intro hyv
    rw [deriveRow_ratio cols r hy hm, hyv]
    cases h : r "Reskilling_Time_Months" <;> rfl

/-- C1 (amended) witness: the spec's worked example, years 2 and months 12,
derives ratio `(2 * 12) / 12 = 2`. -/
theorem reskilling_ratio_spec_witness :
    deriveRow ratioCols viableRow "Reskilling_Viability_Ratio" =
      .num ((2 * 12) / 12) :=
  (reskilling_ratio_spec ratioCols viableRow (by decide) (by decide)).1
    2 12 rfl rfl (by norm_num)

/-- C2 counterexample: a row with `Years_to_50_Percent_Obsolescence = 2`
derives `Urgency_Category = "Critical (<2y)"` — `pd.cut` bins are
right-closed, so 2 falls in `(0,2]` — not the `"High (2-5y)"` the claim
requires. -/
theorem urgency_boundary_two_counterexample :
    deriveRow urgencyCols boundaryTwoRow "Urgency_Category" =
      .str "Critical (<2y)" ∧
    Value.str "Critical (<2y)" ≠ .str "High (2-5y)" := by
  constructor
  · rw [deriveRow_urgency urgencyCols boundaryTwoRow (by decide)]
    norm_num [boundaryTwoRow, urgencyValue, urgencyCategory]
  · intro h
    exact absurd (Value.str.inj h) (by decide)

/-- C2 (amended): for every row with `Years_to_50_Percent_Obsolescence`
exactly 2.0, the derived `Urgency_Category` is `"Critical (<2y)"`: the
value at the 2/5 bin boundary falls in the lower bin, the bins being
closed on their upper side. -/
theorem urgency_boundary_two_amended (cols : List String) (r : Row)
    (hy : "Years_to_50_Percent_Obsolescence" ∈ cols)
    (h2 : r "Years_to_50_Percent_Obsolescence" = .num 2) :
    deriveRow cols r "Urgency_Category" = .str "Critical (<2y)" := by
  rw [deriveRow_urgency cols r hy, h2]
  norm_num [urgencyValue, urgencyCategory]

/-- C2 (amended) witness: the boundary row evaluates to the critical
label. -/
theorem urgency_boundary_two_amended_witness :
    deriveRow urgencyCols boundaryTwoRow "Urgency_Category" =
      .str "Critical (<2y)" :=
  urgency_boundary_two_amended urgencyCols boundaryTwoRow (by decide) rfl

/-- C5: over a schema holding the obsolescence-years column, the derived
`Urgency_Category` follows the four-bin table on interior values — 1.5
maps to `"Critical (<2y)"`, 7 to `"Moderate (5-10y)"`, 15 to
`"Low (>10y)"` — while exactly 0, any negative value, and a missing value
yield no category. -/
theorem urgency_interior_spec (cols : List String) (r : Row)
    (hy : "Years_to_50_Percent_Obsolescence" ∈ cols) :
    (r "Years_to_50_Percent_Obsolescence" = .num (3 / 2) →
      deriveRow cols r "Urgency_Category" = .str "Critical (<2y)") ∧
    (r "Years_to_50_Percent_Obsolescence" = .num 7 →
      deriveRow cols r "Urgency_Category" = .str "Moderate (5-10y)") ∧
    (r "Years_to_50_Percent_Obsolescence" = .num 15 →
      deriveRow cols r "Urgency_Category" = .str "Low (>10y)") ∧
    (r "Years_to_50_Percent_Obsolescence" = .num 0 →
      deriveRow cols r "Urgency_Category" = .absent) ∧
    (∀ q : ℚ, q < 0 → r "Years_to_50_Percent_Obsolescence" = .num q →
      deriveRow cols r "Urgency_Category" = .absent) ∧
    (r "Years_to_50_Percent_Obsolescence" = .absent →
      deriveRow cols r "Urgency_Category" = .absent) := by
  refine ⟨?_, ?_, ?_, ?_, ?_, ?_⟩
  · intro h
    rw [deriveRow_urgency cols r hy, h]
    norm_num [urgencyValue, urgencyCategory]
  · intro h
    rw [deriveRow_urgency cols r hy, h]
    norm_num [urgencyValue, urgencyCategory]
  · intro h
    rw [deriveRow_urgency cols r hy, h]
    norm_num [urgencyValue, urgencyCategory]
  · intro h
    rw [deriveRow_urgency cols r hy, h]
    norm_num [urgencyValue, urgencyCategory]
  · intro q hq h
    rw [deriveRow_urgency cols r hy, h]
    have h1 : ¬ (0 < q ∧ q ≤ 2) := fun hc => absurd hq hc.1.asymm
    have h2 : ¬ (2 < q ∧ q ≤ 5) := fun hc => absurd hc.1 (by linarith)
    have h3 : ¬ (5 < q ∧ q ≤ 10) := fun hc => absurd hc.1 (by linarith)
    have h4 : ¬ (10 < q) := by linarith
    simp [urgencyValue, urgencyCategory, h1, h2, h3, h4]
  · intro h
    rw [deriveRow_urgency cols r hy, h]
    rfl

/-- C5 witness: a row with obsolescence years 1.5 derives the critical
label. -/
theorem urgency_interior_spec_witness :
    deriveRow urgencyCols interiorRow "Urgency_Category" =
      .str "Critical (<2y)" :=
  (urgency_interior_spec urgencyCols interiorRow (by decide)).1 rfl

/-- C9: the urgency binning is right-closed at every boundary — years
exactly 2 map to `"Critical (<2y)"`, exactly 5 to `"High (2-5y)"`, exactly
10 to `"Moderate (5-10y)"` — and on every number the binning follows the
intervals `(0,2]`, `(2,5]`, `(5,10]`, `(10,∞)`. -/
theorem urgency_boundary_convention_spec (cols : List String) (r : Row)
    (hy : "Years_to_50_Percent_Obsolescence" ∈ cols) :
    (r "Years_to_50_Percent_Obsolescence" = .num 2 →
      deriveRow cols r "Urgency_Category" = .str "Critical (<2y)") ∧
    (r "Years_to_50_Percent_Obsolescence" = .num 5 →
      deriveRow cols r "Urgency_Category" = .str "High (2-5y)") ∧
    (r "Years_to_50_Percent_Obsolescence" = .num 10 →
      deriveRow cols r "Urgency_Category" = .str "Moderate (5-10y)") ∧
    (∀ q : ℚ, r "Years_to_50_Percent_Obsolescence" = .num q →
      ((0 < q ∧ q ≤ 2) →
        deriveRow cols r "Urgency_Category" = .str "Critical (<2y)") ∧
      ((2 < q ∧ q ≤ 5) →
        deriveRow cols r "Urgency_Category" = .str "High (2-5y)") ∧
      ((5 < q ∧ q ≤ 10) →
        deriveRow cols r "Urgency_Category" = .str "Moderate (5-10y)") ∧
      (10 < q →
        deriveRow cols r "Urgency_Category" = .str "Low (>10y)")) := by
  refine ⟨?_, ?_, ?_, ?_⟩
  · intro h
    rw [deriveRow_urgency cols r hy, h]
    norm_num [urgencyValue, urgencyCategory]
  · intro h
    rw [deriveRow_urgency cols r hy, h]
    norm_num [urgencyValue, urgencyCategory]
  · intro h
    rw [deriveRow_urgency cols r hy, h]
    norm_num [urgencyValue, urgencyCategory]
  · intro q h
    rw [deriveRow_urgency cols r hy, h]
    refine ⟨?_, ?_, ?_, ?_⟩
    · intro hc
      simp [urgencyValue, urgencyCategory, hc]
    · intro hc
      have h1 : ¬ (0 < q ∧ q ≤ 2) := fun hx => absurd hc.1 hx.2.not_lt
      simp [urgencyValue, urgencyCategory, h1, hc]
    · intro hc
      have h1 : ¬ (0 < q ∧ q ≤ 2) := fun hx => absurd hx.2 (by linarith)
      have h2 : ¬ (2 < q ∧ q ≤ 5) := fun hx => absurd hx.2 (by linarith)
      simp [urgencyValue, urgencyCategory, h1, h2, hc]
    · intro hc
      have h1 : ¬ (0 < q ∧ q ≤ 2) := fun hx => absurd hx.2 (by linarith)
      have h2 : ¬ (2 < q ∧ q ≤ 5) := fun hx => absurd hx.2 (by linarith)
      have h3 : ¬ (5 < q ∧ q ≤ 10) := fun hx => absurd hx.2 (by linarith)
      simp [urgencyValue, urgencyCategory, h1, h2, h3, hc]

/-- C9 witness: a row with obsolescence years exactly 5 derives the
`"High (2-5y)"` label. -/
theorem urgency_boundary_convention_spec_witness :
    deriveRow urgencyCols boundaryFiveRow "Urgency_Category" =
      .str "High (2-5y)" :=
  (urgency_boundary_convention_spec urgencyCols boundaryFiveRow
    (by decide)).2.1 rfl

/-- C6: loading a missing or unreadable source produces the fatal
user-visible error of src/app.py lines 119-121 and no dataset: the run
stops, and no `ok` result exists. -/
theorem load_missing_source_fatal :
    load_and_process_data none =
      .fatalError "Dataset skill_half_life_ai.csv not found. Please ensure the file is in the same directory." ∧
    ∀ d : Dataset, load_and_process_data none ≠ .ok d :=
  ⟨rfl, fun _ h => LoadResult.noConfusion h⟩

/-- C8: loading the same unchanged source twice yields structurally
identical datasets — the same column set and row-for-row identical rows
(including every derived cell). -/
theorem load_idempotent (t : Option Dataset) (d₁ d₂ : Dataset)
    (h₁ : load_and_process_data t = .ok d₁)
    (h₂ : load_and_process_data t = .ok d₂) :
    d₁.columns = d₂.columns ∧ d₁.rows = d₂.rows := by
  have h : LoadResult.ok d₁ = LoadResult.ok d₂ := h₁.symm.trans h₂
  cases h
  exact ⟨rfl, rfl⟩

/-- C8 witness: the theorem applied to two loads of the empty table. -/
theorem load_idempotent_witness :
    (processData emptyDataset).columns = (processData emptyDataset).columns ∧
    (processData emptyDataset).rows = (processData emptyDataset).rows :=
  load_idempotent (some emptyDataset) (processData emptyDataset)
    (processData emptyDataset) rfl rfl

/-- C7: the sidebar filter never mutates the loaded dataset — after a run
the dataset is exactly the input — and each run is referentially
transparent: running on the dataset left by an earlier run with any other
selections gives exactly the result of running on the original dataset,
so the result depends only on the dataset and that run's selections. -/
theorem filter_no_mutation (df : Dataset) (s₁ c₁ s₂ c₂ : String) :
    (sidebarFilter df s₁ c₁).df = df ∧
    sidebarFilter ((sidebarFilter df s₁ c₁).df) s₂ c₂ =
      sidebarFilter df s₂ c₂ :=
  ⟨rfl, rfl⟩

/-- C3: for every dataset and every pair of sidebar selections, the
filtered view holds exactly the input rows that satisfy every active
(non-`"All"`) selection whose column exists in the schema, with exact
case-sensitive equality and AND composition (the `specFilter` reading of
the spec); the view is a sublist of the input rows (original order kept);
`matched` is the number of view rows and `total` the number of input
rows. -/
theorem filter_engine_spec (df : Dataset) (ss sc : String) :
    (sidebarFilter df ss sc).view.rows =
      specFilter df [ (sectorColName df.columns, ss), ("Skill_Category", sc) ] ∧
    (sidebarFilter df ss sc).matched = (sidebarFilter df ss sc).view.rows.length ∧
    (sidebarFilter df ss sc).total = df.rows.length ∧
    (sidebarFilter df ss sc).view.rows.Sublist df.rows := by
  have key : (sidebarFilter df ss sc).view.rows =
      specFilter df [ (sectorColName df.columns, ss), ("Skill_Category", sc) ] := by
    by_cases hS : "Sector" ∈ df.columns <;>
    by_cases hI : "Industry" ∈ df.columns <;>
    by_cases hC : "Skill_Category" ∈ df.columns <;>
    by_cases hss : ss = "All" <;>
    by_cases hsc : sc = "All" <;>
    simp [sidebarFilter, specFilter, sectorColName, hS, hI, hC, hss, hsc,
      List.filter_filter]
    all_goals exact List.filter_congr fun a _ => Bool.and_comm _ _
  refine ⟨key, rfl, rfl, ?_⟩
  rw [key]
  exact List.filter_sublist _

/-- C10: when the dataset holds both a `Sector` and an `Industry` column
the sector filter dimension is `Sector`, and the filtered view equals the
spec predicate reading only the `Sector` and `Skill_Category` cells — the
`Industry` values are never consulted; `Industry` becomes the sector
dimension only when `Sector` is absent from a schema. -/
theorem sector_dimension_spec (df : Dataset) (cols : List String)
    (ss sc : String)
    (hS : "Sector" ∈ df.columns) (hI : "Industry" ∈ df.columns) :
    sectorColName df.columns = "Sector" ∧
    (sidebarFilter df ss sc).view.rows =
      specFilter df [ ("Sector", ss), ("Skill_Category", sc) ] ∧
    ("Sector" ∉ cols → sectorColName cols = "Industry") := by
  refine ⟨by simp [sectorColName, hS], ?_, fun h => by simp [sectorColName, h]⟩
  by_cases hC : "Skill_Category" ∈ df.columns <;>
  by_cases hss : ss = "All" <;>
  by_cases hsc : sc = "All" <;>
  simp [sidebarFilter, specFilter, sectorColName, hS, hI, hC, hss, hsc,
    List.filter_filter]
  all_goals exact List.filter_congr fun a _ => Bool.and_comm _ _

/-- C10 witness: the theorem applied to a dataset carrying both columns
and to the schema holding only `Industry`. -/
theorem sector_dimension_spec_witness :
    sectorColName sectorDataset.columns = "Sector" ∧
    (sidebarFilter sectorDataset "A" "All").view.rows =
      specFilter sectorDataset [ ("Sector", "A"), ("Skill_Category", "All") ] ∧
    ("Sector" ∉ [ "Industry" ] → sectorColName [ "Industry" ] = "Industry") :=
  sector_dimension_spec sectorDataset [ "Industry" ] "A" "All"
    (by decide) (by decide)
